import Mathlib

/-!
Shallow embedding of the sensu/http-checks multi-endpoint HTTP check
(cmd http-check, "HTTP Status/String Check for multiple endpoints"):
the Endpoint data model and its JSON merge semantics, the argument
validation pass (checkArgs), the fan-out probe/evaluation loop and the
event/aggregation phase of executeCheck, and the event emission logic
(generateEvent).  HTTP traffic, file loading and JSON text parsing are
modelled by explicit outcome values and oracles; everything else is
translated from the Go source.
-/

namespace HTTPCheck

/-! ## Severity codes (sensu.CheckState constants) -/

def checkStateOK : Nat := 0

def checkStateWarning : Nat := 1

def checkStateCritical : Nat := 2

def checkStateUnknown : Nat := 3

/-! ## Literal substring containment (strings.Contains) -/

/-- Character-list version of strings.HasPrefix restricted to what
strings.Contains needs: the first list is a leading segment of the second. -/
def leadEq : List Char → List Char → Bool
  | [], _ => true
  | _ :: _, [] => false
  | a :: as, b :: bs => a == b && leadEq as bs

/-- Character-list version of strings.Contains: the first list occurs as a
contiguous sublist of the second. -/
def subChars (needle : List Char) : List Char → Bool
  | [] => leadEq needle []
  | c :: rest => leadEq needle (c :: rest) || subChars needle rest

/-- Embeds Go strings.Contains(hay, needle). -/
def strContains (hay needle : String) : Bool :=
  subChars needle.data hay.data

/-! ## Data model -/

/-- Embeds the Endpoint struct of cmd/http-check: one merged http check
request plus its mutable result fields (Error, Status, StatusMsg).  The Go
error value is modelled as an optional message string. -/
structure Endpoint where
  url : String := ""
  headers : List String := []
  searchString : String := ""
  redirectOK : Bool := false
  timeout : Int := 0
  mtlsKeyFile : String := ""
  mtlsCertFile : String := ""
  trustedCAFile : String := ""
  insecureSkipVerify : Bool := false
  createEvent : Bool := false
  entityName : String := ""
  checkName : String := ""
  handlers : List String := []
  eventsAPI : String := ""
  error : Option String := none
  status : Nat := 0
  statusMsg : String := ""
deriving DecidableEq

/-- Embeds the Config struct of cmd/http-check (the plugin's global
defaults, one field per command-line option). -/
structure Config where
  endpoints : String := ""
  suppressOKOutput : Bool := false
  dryRun : Bool := false
  url : String := "http://localhost:80/"
  searchString : String := ""
  trustedCAFile : String := ""
  insecureSkipVerify : Bool := false
  redirectOK : Bool := false
  timeout : Int := 15
  headers : List String := []
  mtlsKeyFile : String := ""
  mtlsCertFile : String := ""
  createEvent : Bool := false
  entityName : String := ""
  checkName : String := ""
  handlers : List String := []
  eventsAPI : String := "http://localhost:3031/events"
deriving DecidableEq

/-- One raw per-endpoint JSON descriptor: which keys are present in the
object and with what values.  A field is `none` when the key is absent. -/
structure Descriptor where
  url : Option String := none
  header : Option (List String) := none
  searchString : Option String := none
  redirectOK : Option Bool := none
  timeout : Option Int := none
  mtlsKeyFile : Option String := none
  mtlsCertFile : Option String := none
  trustedCA : Option String := none
  insecureSkipVerify : Option Bool := none
  createEvent : Option Bool := none
  eventEntityName : Option String := none
  eventCheckName : Option String := none
  eventHandlers : Option (List String) := none
  eventsAPI : Option String := none
deriving DecidableEq

/-- Embeds Endpoint.UnmarshalJSON: an alias struct is pre-seeded with the
plugin's global defaults and json.Unmarshal then overlays every key present
in the descriptor onto its matching struct field.  In the Go struct both
EntityName and CheckName carry the same json tag "event-entity-name", so by
encoding/json field resolution both fields are dropped from the name table:
a descriptor's "event-entity-name" key matches two fields (conflict, both
ignored) and its "event-check-name" key matches no field at all, so the two
seeded defaults always survive. -/
def unmarshalEndpoint (plugin : Config) (d : Descriptor) : Endpoint :=
  { url := d.url.getD plugin.url
    headers := d.header.getD plugin.headers
    searchString := d.searchString.getD plugin.searchString
    redirectOK := d.redirectOK.getD plugin.redirectOK
    timeout := d.timeout.getD plugin.timeout
    mtlsKeyFile := d.mtlsKeyFile.getD plugin.mtlsKeyFile
    mtlsCertFile := d.mtlsCertFile.getD plugin.mtlsCertFile
    trustedCAFile := d.trustedCA.getD plugin.trustedCAFile
    insecureSkipVerify := d.insecureSkipVerify.getD plugin.insecureSkipVerify
    createEvent := d.createEvent.getD plugin.createEvent
    entityName := plugin.entityName
    checkName := plugin.checkName
    handlers := d.eventHandlers.getD plugin.handlers
    eventsAPI := d.eventsAPI.getD plugin.eventsAPI
    error := none
    status := 0
    statusMsg := "" }

/-- Merge as the spec describes it: every field explicitly present in the
descriptor, including event-entity-name and event-check-name, replaces the
global default.  Stated from the spec's words for comparison with
unmarshalEndpoint. -/
def specMergeEndpoint (plugin : Config) (d : Descriptor) : Endpoint :=
  { unmarshalEndpoint plugin d with
    entityName := d.eventEntityName.getD plugin.entityName
    checkName := d.eventCheckName.getD plugin.checkName }

/-! ## Default check-name synthesis (executeCheck lines 306-317) -/

/-- Membership in the character class a-zA-Z0-9 of the Go regular
expression used by the check-name synthesis. -/
def isAlnumChar (c : Char) : Bool :=
  ('a' ≤ c && c ≤ 'z') || ('A' ≤ c && c ≤ 'Z') || ('0' ≤ c && c ≤ '9')

/-- One-pass translation of reg.ReplaceAllString(path, "_") for the regular
expression matching one or more characters outside a-zA-Z0-9: the flag
records whether the previous character was inside such a run. -/
def collapseGo (inRun : Bool) : List Char → List Char
  | [] => []
  | c :: rest =>
    if isAlnumChar c then c :: collapseGo false rest
    else if inRun then collapseGo true rest
    else '_' :: collapseGo true rest

/-- Embeds reg.ReplaceAllString(checkURL.Path, "_") with the compiled
pattern matching maximal runs of non-alphanumeric characters. -/
def processPath (path : String) : String :=
  String.mk (collapseGo false path.data)

theorem dropWhileLengthLe (p : Char → Bool) (l : List Char) :
    (l.dropWhile p).length ≤ l.length := by
  induction l with
  | nil => simp [List.dropWhile]
  | cons a t ih =>
    cases h : p a
    · simp [List.dropWhile, h]
    · simp [List.dropWhile, h]
      omega

/-- Replacement of every maximal run of non-alphanumeric characters by a
single underscore, written the way the spec phrases it: a run is consumed
with dropWhile in one step. -/
def specProcess : List Char → List Char
  | [] => []
  | c :: rest =>
    if isAlnumChar c then c :: specProcess rest
    else '_' :: specProcess (rest.dropWhile (fun d => !isAlnumChar d))
termination_by l => l.length
decreasing_by
  · simp only [List.length_cons]
    omega
  · simp only [List.length_cons]
    have h := dropWhileLengthLe (fun d => !isAlnumChar d) rest
    omega

/-- Embeds the CheckName default branch of executeCheck: when no check name
was supplied, derive one from the URL path. -/
def synthCheckName (ep : Endpoint) (path : String) : String :=
  if ep.checkName.length == 0 then
    let processed := processPath path
    let processed := if processed.length == 0 then "root_path" else processed
    "http_check-" ++ processed
  else ep.checkName

/-- Embeds the EntityName default branch of executeCheck: when no entity
name was supplied, use the URL's host. -/
def synthEntityName (ep : Endpoint) (host : String) : String :=
  if ep.entityName.length == 0 then host else ep.entityName

/-! ## Argument validation (checkArgs) and the shared TLS configuration -/

/-- Abstraction of Go crypto/tls.Config as far as checkArgs and
executeCheck touch it: which CA bundle was loaded into RootCAs, the
InsecureSkipVerify flag, whether DefaultCipherSuites were installed, and
the loaded client certificate pairs. -/
structure TLSConfig where
  rootCAs : Option String := none
  insecureSkipVerify : Bool := false
  cipherSuites : Bool := false
  certificates : List (String × String) := []
deriving DecidableEq

/-- Oracle for the file-system collaborators: whether LoadCACerts succeeds
for a CA path and whether tls.LoadX509KeyPair succeeds for a cert/key
pair. -/
structure FileOracle where
  caLoadOk : String → Bool
  keyPairOk : String → String → Bool

/-- Embeds the header syntax test of checkArgs: strings.SplitN(h, ":", 2)
yields fewer than two parts exactly when the header contains no colon. -/
def headerMalformed (h : String) : Bool :=
  !(h.data.contains ':')

/-- The writes checkArgs performs on the shared tls.Config for one
endpoint that passed the CA check: RootCAs when a CA file is given, then
InsecureSkipVerify and CipherSuites unconditionally (lines 267-276). -/
def caUpdate (tls : TLSConfig) (ep : Endpoint) : TLSConfig :=
  { (if ep.trustedCAFile.length > 0 then
      { tls with rootCAs := some ep.trustedCAFile } else tls) with
    insecureSkipVerify := ep.insecureSkipVerify
    cipherSuites := true }

/-- The client-certificate write checkArgs performs on the shared
tls.Config when the endpoint configures mTLS (lines 281-287). -/
def mtlsUpdate (tls : TLSConfig) (ep : Endpoint) : TLSConfig :=
  if ep.mtlsKeyFile.length > 0 && ep.mtlsCertFile.length > 0 then
    { tls with certificates := [(ep.mtlsCertFile, ep.mtlsKeyFile)] } else tls

/-- Embeds the per-endpoint validation loop of checkArgs (lines 254-288):
each failure returns WARNING at once, and the shared mutable tls.Config is
overwritten in place by every endpoint that gets past its checks. -/
def checkArgsLoop (o : FileOracle) (tls : TLSConfig) :
    List Endpoint → Option Nat × TLSConfig
  | [] => (none, tls)
  | ep :: rest =>
    if ep.url.length == 0 then (some checkStateWarning, tls)
    else if ep.headers.any headerMalformed then (some checkStateWarning, tls)
    else if ep.trustedCAFile.length > 0 && !o.caLoadOk ep.trustedCAFile then
      (some checkStateWarning, tls)
    else if (ep.mtlsKeyFile.length > 0 && ep.mtlsCertFile.length == 0)
        || (ep.mtlsCertFile.length > 0 && ep.mtlsKeyFile.length == 0) then
      (some checkStateWarning, caUpdate tls ep)
    else if ep.mtlsKeyFile.length > 0 && ep.mtlsCertFile.length > 0
        && !o.keyPairOk ep.mtlsCertFile ep.mtlsKeyFile then
      (some checkStateWarning, caUpdate tls ep)
    else checkArgsLoop o (mtlsUpdate (caUpdate tls ep) ep) rest

/-- Result of parsing the --endpoints JSON: either json.Unmarshal failed or
it produced a list of merged Endpoint values. -/
inductive EndpointsParse where
  | parseFail
  | parsed (eps : List Endpoint)
deriving DecidableEq

/-- Embeds checkArgs: an unparseable --endpoints string is UNKNOWN, a
parsed list of zero endpoints is UNKNOWN, a validation failure inside the
loop is the loop's WARNING; otherwise OK together with the endpoint list
and the tls.Config state the loop left behind. -/
def checkArgs (o : FileOracle) (pr : EndpointsParse) :
    Nat × Option (List Endpoint) × TLSConfig :=
  match pr with
  | .parseFail => (checkStateUnknown, none, {})
  | .parsed eps =>
    if eps.length == 0 then (checkStateUnknown, none, {})
    else
      match checkArgsLoop o {} eps with
      | (some w, tls) => (w, none, tls)
      | (none, tls) => (checkStateOK, some eps, tls)

/-- Scheme of a parsed URL: the characters before the first colon, as
url.Parse extracts it for an absolute URL. -/
def urlScheme (u : String) : String :=
  String.mk (u.data.takeWhile (fun c => c != ':'))

/-- Embeds executeCheck lines 326-328: an https endpoint's transport points
at the one shared global tls.Config exactly as checkArgs left it; an http
endpoint's transport carries no TLS client config.  Nothing is re-derived
from the endpoint itself at probe time. -/
def probeTLS (tlsShared : TLSConfig) (ep : Endpoint) : Option TLSConfig :=
  if urlScheme ep.url == "https" then some tlsShared else none

/-- TLS configuration derived from one endpoint's own merged spec in
isolation, which is what the spec says each probe uses.  Stated from the
spec's words for comparison with probeTLS. -/
def tlsFromSpec (ep : Endpoint) : TLSConfig :=
  { rootCAs := if ep.trustedCAFile.length > 0 then some ep.trustedCAFile else none
    insecureSkipVerify := ep.insecureSkipVerify
    cipherSuites := true
    certificates := if ep.mtlsKeyFile.length > 0 && ep.mtlsCertFile.length > 0 then
      [(ep.mtlsCertFile, ep.mtlsKeyFile)] else [] }

/-! ## Fan-out probe loop (executeCheck lines 295-442) -/

/-- Plugin name used in every status message. -/
def pluginName : String := "http-check"

/-- Outcome of the HTTP machinery for one endpoint: failure of
url.Parse, http.NewRequest, client.Do or ioutil.ReadAll, or a response
with its status code, Location header (empty when absent), body, and the
final URL after any followed redirects (resp.Request.URL). -/
inductive ProbeOutcome where
  | parseError
  | requestError
  | transportError
  | readError
  | response (status : Int) (location : String) (body : String) (finalURL : String)
deriving DecidableEq

/-- Per-endpoint input to the fan-out loop: the parsed URL's host and path
(for name synthesis) and the probe outcome. -/
structure Probe where
  host : String := ""
  path : String := ""
  outcome : ProbeOutcome
deriving DecidableEq

/-- Embeds the switch of executeCheck lines 396-441 (the status-code
policy, reached only with an empty search string): status at least 400 is
CRITICAL; a followed redirect (final URL differs and redirects allowed) is
OK; status at least 300 is WARNING with the Location value appended when
present; the sentinel status -1 is UNKNOWN; anything else is OK.  Every
branch ends in a break that only leaves the switch, so the loop goes on. -/
def statusPolicy (ep : Endpoint) (status : Int) (location : String)
    (finalURL : String) : Endpoint :=
  if status ≥ 400 then
    { ep with
      error := none
      status := checkStateCritical
      statusMsg := pluginName ++ " CRITICAL: HTTP Status " ++ toString status
        ++ " for " ++ ep.url ++ "\n" }
  else if finalURL != ep.url && ep.redirectOK then
    { ep with
      error := none
      status := checkStateOK
      statusMsg := pluginName ++ " OK: HTTP Status " ++ toString status
        ++ " for " ++ finalURL ++ " (redirect from " ++ ep.url ++ ")\n" }
  else if status ≥ 300 then
    let extra := if location.length > 0 then " (redirects to " ++ location ++ ")" else ""
    { ep with
      error := none
      status := checkStateWarning
      statusMsg := pluginName ++ " WARNING: HTTP Status " ++ toString status
        ++ " for " ++ ep.url ++ " " ++ extra ++ "\n" }
  else if status == -1 then
    { ep with
      error := none
      status := checkStateUnknown
      statusMsg := pluginName ++ " UNKNOWN: HTTP Status " ++ toString status
        ++ " for " ++ ep.url ++ "\n" }
  else
    { ep with
      error := none
      status := checkStateOK
      statusMsg := pluginName ++ " OK: HTTP Status " ++ toString status
        ++ " for " ++ ep.url ++ "\n" }

/-- Embeds one iteration of the endpoint loop of executeCheck (lines
295-442): name synthesis, then the error branches and the search-string
branch, each of which ends in a break statement that sits directly in the
for loop and therefore halts the whole iteration (second component true);
only the status-code switch falls out of the iteration normally. -/
def probeStep (ep0 : Endpoint) (p : Probe) : Endpoint × Bool :=
  let ep := { ep0 with
    entityName := synthEntityName ep0 p.host
    checkName := synthCheckName ep0 p.path }
  match p.outcome with
  | .parseError =>
    ({ ep with
       error := some "url parse error"
       status := checkStateCritical
       statusMsg := pluginName ++ " CRITICAL: error parsing URL\n" }, true)
  | .requestError =>
    ({ ep with
       error := some "request creation error"
       status := checkStateCritical
       statusMsg := pluginName ++ " CRITICAL: error creating request\n" }, true)
  | .transportError =>
    ({ ep with
       error := some "request error"
       status := checkStateCritical
       statusMsg := pluginName ++ " CRITICAL: error making request\n" }, true)
  | .readError =>
    ({ ep with
       error := some "body read error"
       status := checkStateCritical
       statusMsg := pluginName ++ " CRITICAL: error reading body\n" }, true)
  | .response status location body finalURL =>
    if ep.searchString.length > 0 then
      if strContains body ep.searchString then
        ({ ep with
           error := none
           status := checkStateOK
           statusMsg := pluginName ++ " OK: found \"" ++ ep.searchString
             ++ "\" at " ++ finalURL ++ "\n" }, true)
      else
        ({ ep with
           error := none
           status := checkStateCritical
           statusMsg := pluginName ++ " CRITICAL: \"" ++ ep.searchString
             ++ "\" not found at " ++ finalURL ++ "\n" }, true)
    else
      (statusPolicy ep status location finalURL, false)

/-- Embeds the whole endpoint loop: endpoints are processed in order,
pairing each with its probe input; when an iteration ends in a loop-level
break the remaining endpoints keep their initial zero-value results.  The
second component counts how many endpoints were actually probed. -/
def fanOut : List Endpoint → List Probe → List Endpoint × Nat
  | [], _ => ([], 0)
  | eps, [] => (eps, 0)
  | ep :: rest, pb :: pbs =>
    let (ep2, halt) := probeStep ep pb
    if halt then (ep2 :: rest, 1)
    else
      let (rest2, n) := fanOut rest pbs
      (ep2 :: rest2, n + 1)

/-! ## Event emission (generateEvent) and aggregation (executeCheck lines 443-469) -/

/-- The event record generateEvent fills in from an endpoint: check name,
numeric status, output message, handlers, entity name. -/
structure EventRecord where
  checkName : String
  status : Nat
  output : String
  handlers : List String
  entityName : String
deriving DecidableEq

/-- Embeds the event record construction at the top of generateEvent. -/
def buildEvent (ep : Endpoint) : EventRecord :=
  { checkName := ep.checkName
    status := ep.status
    output := ep.statusMsg
    handlers := ep.handlers
    entityName := ep.entityName }

/-- Observable side effects of generateEvent: either the dry-run printout
of the event's fields and destination, or an http.Post of the serialized
event to the events API. -/
inductive EmitEffect where
  | printed (url : String) (api : String) (ev : EventRecord)
  | posted (api : String) (ev : EventRecord)
deriving DecidableEq

/-- True exactly for the network POST effect. -/
def EmitEffect.isPost : EmitEffect → Bool
  | .printed _ _ _ => false
  | .posted _ _ => true

/-- Error message recorded when the POST to the events API fails. -/
def postFailMsg (api : String) : String :=
  "event POST failed: " ++ api

/-- Embeds generateEvent: build the event record; in dry-run mode print its
fields and the would-be destination and return nil; otherwise POST it to
the endpoint's events API and return the POST error if the request fails
(postOK is the oracle for whether http.Post succeeds).  Serialization of
the event record is total here, matching json.Marshal on this event type. -/
def generateEvent (dryRun : Bool) (postOK : String → Bool) (ep : Endpoint) :
    List EmitEffect × Option String :=
  let ev := buildEvent ep
  if dryRun then
    ([.printed ep.url ep.eventsAPI ev], none)
  else if postOK ep.eventsAPI then
    ([.posted ep.eventsAPI ev], none)
  else
    ([.posted ep.eventsAPI ev], some (postFailMsg ep.eventsAPI))

/-- Output of the event/aggregation loop: the updated endpoint entries, the
emission side effects in order, the endpoints generateEvent was invoked
for, and the overall severity accumulator. -/
structure EventPhaseOut where
  endpoints : List Endpoint
  effects : List EmitEffect
  invoked : List Endpoint
  overall : Nat
deriving DecidableEq

/-- Embeds the loop of executeCheck lines 447-455: an endpoint with a nil
Error that requested event creation has generateEvent invoked and its Error
slot overwritten with the result; every other endpoint folds its Status
into the overall maximum. -/
def eventPhaseGo (dryRun : Bool) (postOK : String → Bool) :
    List Endpoint → Nat → EventPhaseOut
  | [], ov => ⟨[], [], [], ov⟩
  | ep :: rest, ov =>
    if ep.error.isNone && ep.createEvent then
      let (effs, err) := generateEvent dryRun postOK ep
      let r := eventPhaseGo dryRun postOK rest ov
      ⟨{ ep with error := err } :: r.endpoints, effs ++ r.effects,
        ep :: r.invoked, r.overall⟩
    else
      let r := eventPhaseGo dryRun postOK rest
        (if ov < ep.status then ep.status else ov)
      ⟨ep :: r.endpoints, r.effects, r.invoked, r.overall⟩

/-- Embeds the multierror accumulation of executeCheck lines 459-463: every
endpoint's non-nil Error, in order, combined into one error value. -/
def overallError (eps : List Endpoint) : List String :=
  eps.filterMap (fun ep => ep.error)

/-- Overall severity as the spec describes it: the maximum severity over
the endpoints that did not request event creation.  Stated from the spec's
words for comparison with the overall component of eventPhaseGo. -/
def specOverall (eps : List Endpoint) : Nat :=
  (eps.filter (fun ep => !ep.createEvent)).foldl (fun a ep => max a ep.status) 0

/-- Embeds executeCheck from the fan-out loop onward: probe every endpoint
(until a loop-level break), run the event/aggregation loop, and return the
overall severity with the combined error value, the effects, and how many
endpoints were probed. -/
def executeCheckModel (dryRun : Bool) (postOK : String → Bool)
    (eps : List Endpoint) (probes : List Probe) :
    Nat × List String × List EmitEffect × Nat :=
  let (eps1, probed) := fanOut eps probes
  let r := eventPhaseGo dryRun postOK eps1 0
  (r.overall, overallError r.endpoints, r.effects, probed)

/-- Embeds the GoCheck driver contract of the plugin SDK: checkArgs runs
first and executeCheck runs only when it returned OK, so a validation
failure ends the run with checkArgs's status and zero endpoints probed.
Returns the run's status and the number of endpoints probed. -/
def runCheck (o : FileOracle) (dryRun : Bool) (postOK : String → Bool)
    (pr : EndpointsParse) (probes : List Probe) : Nat × Nat :=
  match checkArgs o pr with
  | (st, none, _) => (st, 0)
  | (_, some eps, _) =>
    let r := executeCheckModel dryRun postOK eps probes
    (r.1, r.2.2.2)

/-! ## Helper lemmas -/

theorem leadEqAppend (n post : List Char) : leadEq n (n ++ post) = true := by
  induction n with
  | nil => rfl
  | cons a as ih => simp [leadEq, ih]

theorem subCharsNil (l : List Char) : subChars [] l = true := by
  cases l <;> simp [subChars, leadEq]

theorem subCharsAppend (pre n post : List Char) :
    subChars n (pre ++ n ++ post) = true := by
  induction pre with
  | nil =>
    cases n with
    | nil => simp [subCharsNil]
    | cons a as => simp [subChars, leadEq, leadEqAppend]
  | cons c cs ih =>
    simp only [List.append_assoc] at ih ⊢
    simp [subChars, ih]

theorem strContainsConcat (a b c : String) : strContains (a ++ b ++ c) b = true := by
  unfold strContains
  rw [show (a ++ b ++ c).data = a.data ++ b.data ++ c.data by simp]
  exact subCharsAppend _ _ _

theorem subCharsSelf (n post : List Char) : subChars n (n ++ post) = true := by
  have h := subCharsAppend [] n post
  simpa using h

theorem subCharsMid (n a b : List Char) : subChars n (a ++ (n ++ b)) = true := by
  induction a with
  | nil => simpa using subCharsSelf n b
  | cons c cs ih => simp [subChars, ih]

theorem iteMaxEq (a s : Nat) : (if a < s then s else a) = max a s := by
  split <;> omega

/-- Which endpoints the event loop hands to generateEvent: exactly those
with a nil Error that requested event creation. -/
theorem eventInvokedEq (d : Bool) (p : String → Bool) (eps : List Endpoint) (a : Nat) :
    (eventPhaseGo d p eps a).invoked =
      eps.filter (fun e => e.error.isNone && e.createEvent) := by
  induction eps generalizing a with
  | nil => rfl
  | cons e rest ih =>
    by_cases h : (e.error.isNone && e.createEvent) = true
    · simp [eventPhaseGo, h, ih]
    · simp only [eventPhaseGo]
      rw [if_neg (by simp [h])]
      simp [List.filter, h, ih]

/-- The event loop's updated endpoint entries: generateEvent's error lands
in the entry's Error slot, everything else is untouched. -/
theorem eventEndpointsEq (d : Bool) (p : String → Bool) (eps : List Endpoint) (a : Nat) :
    (eventPhaseGo d p eps a).endpoints = eps.map (fun e =>
      if e.error.isNone && e.createEvent then
        { e with error := (generateEvent d p e).2 } else e) := by
  induction eps generalizing a with
  | nil => rfl
  | cons e rest ih =>
    by_cases h : (e.error.isNone && e.createEvent) = true
    · simp only [eventPhaseGo, List.map]
      rw [if_pos h, if_pos h]
      simp [ih]
    · simp only [eventPhaseGo, List.map]
      rw [if_neg h, if_neg h]
      simp [ih]

/-- The event loop's side effects come from the invoked endpoints in
order. -/
theorem eventEffectsEq (d : Bool) (p : String → Bool) (eps : List Endpoint) (a : Nat) :
    (eventPhaseGo d p eps a).effects =
      (eps.filter (fun e => e.error.isNone && e.createEvent)).flatMap
        (fun e => (generateEvent d p e).1) := by
  induction eps generalizing a with
  | nil => rfl
  | cons e rest ih =>
    by_cases h : (e.error.isNone && e.createEvent) = true
    · simp [eventPhaseGo, h, ih]
    · simp only [eventPhaseGo]
      rw [if_neg (by simp [h])]
      simp [List.filter, h, ih]

/-- The event loop's severity accumulator folds the status of exactly the
endpoints it did not hand to generateEvent. -/
theorem eventOverallEq (d : Bool) (p : String → Bool) (eps : List Endpoint) (a : Nat) :
    (eventPhaseGo d p eps a).overall =
      eps.foldl (fun acc e =>
        if e.error.isNone && e.createEvent then acc else max acc e.status) a := by
  induction eps generalizing a with
  | nil => rfl
  | cons e rest ih =>
    by_cases h : (e.error.isNone && e.createEvent) = true
    · simp only [eventPhaseGo, List.foldl]
      rw [if_pos h, if_pos h]
      exact ih a
    · simp only [eventPhaseGo, List.foldl]
      rw [if_neg h, if_neg h]
      rw [ih, iteMaxEq]

/-- Folding a conditional maximum is folding the maximum over the filtered
list. -/
theorem foldIfFilter (q : Endpoint → Bool) (eps : List Endpoint) (a : Nat) :
    eps.foldl (fun acc e => if q e then acc else max acc e.status) a =
      (eps.filter (fun e => !q e)).foldl (fun acc e => max acc e.status) a := by
  induction eps generalizing a with
  | nil => rfl
  | cons e rest ih =>
    by_cases h : q e = true <;> simp [h, ih]

theorem foldMaxLe (eps : List Endpoint) (a : Nat) :
    a ≤ eps.foldl (fun acc e => max acc e.status) a := by
  induction eps generalizing a with
  | nil => simp
  | cons e rest ih => exact le_trans (le_max_left _ _) (ih (max a e.status))

theorem foldMaxMem (e : Endpoint) :
    ∀ (eps : List Endpoint) (a : Nat), e ∈ eps →
      e.status ≤ eps.foldl (fun acc x => max acc x.status) a := by
  intro eps
  induction eps with
  | nil => intro a h; cases h
  | cons x rest ih =>
    intro a h
    rcases List.mem_cons.mp h with rfl | hm
    · exact le_trans (le_max_right _ _) (foldMaxLe rest _)
    · exact ih _ hm

/-- The one-pass run-collapsing translation of the Go regular expression
replacement agrees with the maximal-run phrasing. -/
theorem collapseSpec (l : List Char) :
    collapseGo false l = specProcess l ∧
    collapseGo true l = specProcess (l.dropWhile (fun d => !isAlnumChar d)) := by
  induction l with
  | nil => exact ⟨by simp [collapseGo, specProcess], by simp [collapseGo, specProcess]⟩
  | cons c rest ih =>
    by_cases h : isAlnumChar c = true
    · have hq : (!isAlnumChar c) = false := by simp [h]
      constructor
      · rw [collapseGo, if_pos h, specProcess, if_pos h, ih.1]
      · rw [collapseGo, if_pos h, List.dropWhile_cons, hq]
        rw [if_neg (by simp)]
        rw [specProcess, if_pos h, ih.1]
    · have hq : (!isAlnumChar c) = true := by simp [h]
      constructor
      · rw [collapseGo, if_neg h, if_neg (by simp)]
        rw [specProcess, if_neg h, ih.2]
      · rw [collapseGo, if_neg h, if_pos rfl]
        rw [List.dropWhile_cons, hq, if_pos rfl]
        exact ih.2

/-- The three per-endpoint user-input misconfigurations named by the spec:
empty URL, a header with no colon, a one-sided mTLS cert/key pair. -/
def epMisconfigured (ep : Endpoint) : Bool :=
  ep.url.length == 0 || ep.headers.any headerMalformed ||
    ((ep.mtlsKeyFile.length > 0 && ep.mtlsCertFile.length == 0) ||
     (ep.mtlsCertFile.length > 0 && ep.mtlsKeyFile.length == 0))

/-- Whenever some endpoint in the list is misconfigured, the validation
loop comes back with WARNING. -/
theorem loopWarnOfBad (o : FileOracle) :
    ∀ (eps : List Endpoint) (tls : TLSConfig),
      (∃ ep ∈ eps, epMisconfigured ep = true) →
      (checkArgsLoop o tls eps).1 = some checkStateWarning := by
  intro eps
  induction eps with
  | nil =>
    intro tls h
    rcases h with ⟨ep, hm, _⟩
    cases hm
  | cons e rest ih =>
    intro tls h
    simp only [checkArgsLoop]
    split_ifs with h1 h2 h3 h4 h5
    · rfl
    · rfl
    · rfl
    · rfl
    · rfl
    · apply ih
      rcases h with ⟨ep, hm, hbad⟩
      rcases List.mem_cons.mp hm with rfl | hmr
      · exfalso
        unfold epMisconfigured at hbad
        simp only [Bool.or_eq_true] at hbad
        rcases hbad with (hb | hb) | hb
        · exact h1 hb
        · exact h2 hb
        · exact h4 (by rcases hb with hb | hb <;> simp [hb])
      · exact ⟨ep, hmr, hbad⟩

/-- When the validation loop succeeds, the shared tls.Config it leaves
behind carries the InsecureSkipVerify flag of the last endpoint in the
list: each endpoint's pass overwrote the previous one's. -/
theorem loopSuccessLastInsecure (o : FileOracle) :
    ∀ (eps : List Endpoint) (tls tls2 : TLSConfig),
      checkArgsLoop o tls eps = (none, tls2) → ∀ hne : eps ≠ [],
      tls2.insecureSkipVerify = (eps.getLast hne).insecureSkipVerify := by
  intro eps
  induction eps with
  | nil => intro tls tls2 _ hne; exact absurd rfl hne
  | cons e rest ih =>
    intro tls tls2 heq hne
    simp only [checkArgsLoop] at heq
    split_ifs at heq with h1 h2 h3 h4 h5
    · exact absurd (congrArg Prod.fst heq) (by simp)
    · exact absurd (congrArg Prod.fst heq) (by simp)
    · exact absurd (congrArg Prod.fst heq) (by simp)
    · exact absurd (congrArg Prod.fst heq) (by simp)
    · exact absurd (congrArg Prod.fst heq) (by simp)
    · cases rest with
      | nil =>
        simp only [checkArgsLoop] at heq
        have h2' := congrArg Prod.snd heq
        simp only at h2'
        rw [← h2']
        show (mtlsUpdate (caUpdate tls e) e).insecureSkipVerify =
          ([e].getLast hne).insecureSkipVerify
        unfold mtlsUpdate caUpdate
        split_ifs <;> rfl
      | cons r rs =>
        rw [List.getLast_cons (by simp)]
        exact ih _ _ heq (by simp)

/-! ## Claims -/

/-- One endpoint flagged create-event whose probe fails in transport. -/
def soloEventEndpoint : List Endpoint := [{ url := "http://a/", createEvent := true }]

/-- The probe input for the solo endpoint: client.Do fails. -/
def soloFailProbe : List Probe := [⟨"a", "/", .transportError⟩]

/-- C1 counterexample: the claim says the overall run severity equals the
maximum severity over endpoints whose spec did not request event creation,
and in particular that a run whose only endpoint has create-event true and
a CRITICAL outcome is OK overall.  A transport-error CRITICAL outcome
carries a non-nil Error, so the aggregation loop's else branch folds it in:
the run returns CRITICAL although the endpoints-without-create-event
maximum is vacuously OK. -/
theorem claim1_overall_severity_counterexample :
    (executeCheckModel false (fun _ => true) soloEventEndpoint soloFailProbe).1
        = checkStateCritical ∧
    specOverall (fanOut soloEventEndpoint soloFailProbe).1 = checkStateOK := by
  decide

/-- C1 amended: the overall severity is the maximum status over the
endpoints that either did not request event creation or whose result
carries a recorded error; when every endpoint requested event creation and
none recorded an error, the overall severity is OK (0). -/
theorem claim1_overall_severity_amended (d : Bool) (p : String → Bool)
    (eps : List Endpoint) :
    (eventPhaseGo d p eps 0).overall =
      (eps.filter (fun e => !(e.error.isNone && e.createEvent))).foldl
        (fun acc e => max acc e.status) 0 ∧
    ((∀ e ∈ eps, e.createEvent = true ∧ e.error = none) →
      (eventPhaseGo d p eps 0).overall = 0) := by
  have hmain : (eventPhaseGo d p eps 0).overall =
      (eps.filter (fun e => !(e.error.isNone && e.createEvent))).foldl
        (fun acc e => max acc e.status) 0 := by
    rw [eventOverallEq, foldIfFilter]
  refine ⟨hmain, fun hall => ?_⟩
  rw [hmain]
  have hnil : eps.filter (fun e => !(e.error.isNone && e.createEvent)) = [] := by
    rw [List.filter_eq_nil_iff]
    intro e he
    rcases hall e he with ⟨hc, herr⟩
    simp [hc, herr]
  rw [hnil]
  rfl

theorem claim1_overall_severity_amended_witness :
    (eventPhaseGo false (fun _ => true)
      [{ url := "http://a/", createEvent := true, status := checkStateCritical }] 0).overall
      = 0 :=
  (claim1_overall_severity_amended false (fun _ => true)
    [{ url := "http://a/", createEvent := true, status := checkStateCritical }]).2
    (by decide)

/-- Three endpoints for the fan-out loop. -/
def threeEndpoints : List Endpoint :=
  [{ url := "http://a/" }, { url := "http://b/" }, { url := "http://c/" }]

/-- Probe inputs for the three endpoints: the second one is unreachable. -/
def threeProbes : List Probe :=
  [⟨"a", "/", .response 200 "" "body" "http://a/"⟩,
   ⟨"b", "/", .transportError⟩,
   ⟨"c", "/", .response 400 "" "body" "http://c/"⟩]

/-- C2: the claim says a transport error on one endpoint does not halt the
fan-out iteration and every subsequent endpoint is still probed.  In the
source the error branch ends in a break that sits directly in the for loop
(not in a switch), so the loop stops: on three endpoints whose second probe
fails only two endpoints are probed, the second is recorded CRITICAL, and
the third keeps its zero-value result instead of receiving its own
EndpointResult. -/
theorem claim2_transport_error_halts_fanout :
    (fanOut threeEndpoints threeProbes).2 = 2 ∧
    (fanOut threeEndpoints threeProbes).1 =
      [{ url := "http://a/", entityName := "a", checkName := "http_check-_",
         status := checkStateOK,
         statusMsg := "http-check OK: HTTP Status 200 for http://a/\n" },
       { url := "http://b/", entityName := "b", checkName := "http_check-_",
         status := checkStateCritical, error := some "request error",
         statusMsg := "http-check CRITICAL: error making request\n" },
       { url := "http://c/" }] := by
  decide

/-- Global defaults and a descriptor exercising the per-field merge. -/
def mergePlugin : Config :=
  { url := "http://global/", headers := ["A: 1"], entityName := "", checkName := "" }

/-- A descriptor that explicitly sets url, header, event-check-name and
event-entity-name. -/
def mergeDescriptor : Descriptor :=
  { url := some "http://y/", header := some ["B: 2"],
    eventCheckName := some "custom", eventEntityName := some "myentity" }

/-- C4: the claim says every field explicitly present in a descriptor,
including event-check-name and event-entity-name, replaces the global
default, and headers replace as a whole list.  Header replacement holds,
but the duplicated json tag "event-entity-name" on both EntityName and
CheckName makes encoding/json drop both fields, so neither key can ever
override its default: the merge of a descriptor carrying both keys keeps
the defaults, diverging from the spec-described merge. -/
theorem claim4_merge_event_names_eval :
    (unmarshalEndpoint mergePlugin mergeDescriptor).headers = ["B: 2"] ∧
    (unmarshalEndpoint mergePlugin mergeDescriptor).url = "http://y/" ∧
    (unmarshalEndpoint mergePlugin mergeDescriptor).checkName = "" ∧
    (unmarshalEndpoint mergePlugin mergeDescriptor).entityName = "" ∧
    unmarshalEndpoint mergePlugin mergeDescriptor ≠
      specMergeEndpoint mergePlugin mergeDescriptor := by
  decide

/-- C9 counterexample: the claim says the processed path is empty for the
root "/" path, so that "/" synthesizes the root_path token.  The regular
expression replacement turns "/" into "_", which is nonempty, so the
synthesized name is "http_check-_" and not "http_check-root_path". -/
theorem claim9_root_path_counterexample :
    processPath "/" = "_" ∧
    synthCheckName { url := "http://a/" } "/" = "http_check-_" ∧
    synthCheckName { url := "http://a/" } "/" ≠ "http_check-root_path" := by
  decide

/-- C9 amended: when no check name is supplied the synthesized name is the
fixed prefix "http_check-" followed by the URL path with every maximal run
of non-alphanumeric characters replaced by one underscore, and the literal
token "root_path" is used exactly when that processed path is empty, which
happens only for an empty URL path (the root "/" collapses to "_"). -/
theorem claim9_checkname_synthesis_amended (ep : Endpoint) (path : String)
    (h : ep.checkName = "") :
    synthCheckName ep path = "http_check-" ++
      (if (specProcess path.data).isEmpty then "root_path"
       else String.mk (specProcess path.data)) ∧
    (path = "" → synthCheckName ep path = "http_check-root_path") := by
  have hps : processPath path = String.mk (specProcess path.data) := by
    unfold processPath
    rw [(collapseSpec path.data).1]
  have hmain : synthCheckName ep path = "http_check-" ++
      (if (specProcess path.data).isEmpty then "root_path"
       else String.mk (specProcess path.data)) := by
    unfold synthCheckName
    rw [if_pos (by simp [h])]
    rw [hps]
    rcases hsp : specProcess path.data with _ | ⟨a, t⟩
    · simp
    · simp [String.length]
  refine ⟨hmain, fun hp => ?_⟩
  subst hp
  rw [hmain]
  simp [specProcess]

theorem claim9_checkname_synthesis_amended_witness :
    synthCheckName { url := "http://a/first/path" } "/first/path"
      = "http_check-_first_path" ∧
    synthCheckName { url := "http://a" } "" = "http_check-root_path" :=
  ⟨by
    have h := (claim9_checkname_synthesis_amended
      { url := "http://a/first/path" } "/first/path" rfl).1
    rw [h]
    have hsp : specProcess "/first/path".data = "_first_path".data := by
      rw [← (collapseSpec ("/first/path".data)).1]
      decide
    rw [hsp]
    decide,
   (claim9_checkname_synthesis_amended { url := "http://a" } "" rfl).2 rfl⟩

/-- C10: an endpoint with create-event true whose probe recorded an error
(non-nil Error) is never handed to generateEvent — no event is constructed
or emitted for it — and its severity participates in the overall
maximum-severity aggregate. -/
theorem claim10_error_endpoint_not_evented (d : Bool) (p : String → Bool)
    (eps : List Endpoint) (ep : Endpoint) (hm : ep ∈ eps)
    (he : ep.error.isSome = true) (_hc : ep.createEvent = true) :
    ep ∉ (eventPhaseGo d p eps 0).invoked ∧
    ep.status ≤ (eventPhaseGo d p eps 0).overall := by
  constructor
  · rw [eventInvokedEq]
    intro hmem
    have := (List.mem_filter.mp hmem).2
    simp only [Bool.and_eq_true] at this
    rw [Option.isNone_iff_eq_none] at this
    rw [Option.isSome_iff_exists] at he
    rcases he with ⟨v, hv⟩
    rw [hv] at this
    cases this.1
  · rw [eventOverallEq, foldIfFilter]
    apply foldMaxMem
    rw [List.mem_filter]
    refine ⟨hm, ?_⟩
    rcases Option.isSome_iff_exists.mp he with ⟨v, hv⟩
    simp [hv]

theorem claim10_error_endpoint_not_evented_witness :
    ({ url := "http://a/", createEvent := true, status := checkStateCritical,
       error := some "request error" } : Endpoint) ∉
      (eventPhaseGo false (fun _ => true)
        [{ url := "http://a/", createEvent := true, status := checkStateCritical,
           error := some "request error" }] 0).invoked ∧
    ({ url := "http://a/", createEvent := true, status := checkStateCritical,
       error := some "request error" } : Endpoint).status ≤
      (eventPhaseGo false (fun _ => true)
        [{ url := "http://a/", createEvent := true, status := checkStateCritical,
           error := some "request error" }] 0).overall :=
  claim10_error_endpoint_not_evented false (fun _ => true) _ _
    (by decide) (by decide) (by decide)

/-- C3: with a non-empty search string and a successfully read body, the
evaluated severity is OK exactly when the body contains the search string
as a literal substring and CRITICAL otherwise; the result is the same for
every status code, Location header and final URL (the branch never reaches
the status-code policy), and the branch ends in the loop-level break. -/
theorem claim3_search_string_branch (ep : Endpoint) (host path : String)
    (st st' : Int) (loc loc' body furl furl' : String)
    (h : ep.searchString.length > 0) :
    ((probeStep ep ⟨host, path, .response st loc body furl⟩).1.status = checkStateOK
      ↔ strContains body ep.searchString = true) ∧
    (strContains body ep.searchString = false →
      (probeStep ep ⟨host, path, .response st loc body furl⟩).1.status
        = checkStateCritical) ∧
    ((probeStep ep ⟨host, path, .response st loc body furl⟩).1.status
      = (probeStep ep ⟨host, path, .response st' loc' body furl'⟩).1.status) ∧
    (probeStep ep ⟨host, path, .response st loc body furl⟩).2 = true := by
  by_cases hc : strContains body ep.searchString = true
  · simp [probeStep, h, hc, checkStateOK]
  · simp only [Bool.not_eq_true] at hc
    simp [probeStep, h, hc, checkStateOK, checkStateCritical]

theorem claim3_search_string_branch_witness :
    ({ url := "http://a/", searchString := "SUCCESS" } : Endpoint).searchString.length > 0 ∧
    ((probeStep { url := "http://a/", searchString := "SUCCESS" }
        ⟨"a", "/", .response 500 "" "say SUCCESS now" "http://a/"⟩).1.status = checkStateOK
      ↔ strContains "say SUCCESS now" "SUCCESS" = true) :=
  ⟨by decide,
   (claim3_search_string_branch { url := "http://a/", searchString := "SUCCESS" }
     "a" "/" 500 200 "" "" "say SUCCESS now" "http://a/" "http://a/" (by decide)).1⟩

/-- C5: with an empty search string and redirect policy stop, the final
status maps 200 to OK, 301 to WARNING with the Location value contained in
the message when present, and 400 and 500 to CRITICAL — the status-at-least
400 test is checked before either redirect branch, for every Location and
final URL. -/
theorem claim5_status_policy_stop (ep : Endpoint) (host path body furl loc : String)
    (h1 : ep.searchString = "") (h2 : ep.redirectOK = false) :
    (probeStep ep ⟨host, path, .response 200 loc body furl⟩).1.status = checkStateOK ∧
    (probeStep ep ⟨host, path, .response 301 loc body furl⟩).1.status
      = checkStateWarning ∧
    (loc.length > 0 → strContains
      (probeStep ep ⟨host, path, .response 301 loc body furl⟩).1.statusMsg loc = true) ∧
    (probeStep ep ⟨host, path, .response 400 loc body furl⟩).1.status
      = checkStateCritical ∧
    (probeStep ep ⟨host, path, .response 500 loc body furl⟩).1.status
      = checkStateCritical := by
  refine ⟨?_, ?_, ?_, ?_, ?_⟩
  · simp [probeStep, statusPolicy, h1, h2]
  · simp [probeStep, statusPolicy, h1, h2]
  · intro hl
    have h301 : (probeStep ep ⟨host, path, .response 301 loc body furl⟩).1.statusMsg
        = pluginName ++ " WARNING: HTTP Status " ++ toString (301 : Int) ++ " for "
          ++ ep.url ++ " " ++ (" (redirects to " ++ loc ++ ")") ++ "\n" := by
      simp [probeStep, statusPolicy, h1, h2, hl]
    rw [h301]
    unfold strContains
    rw [show (pluginName ++ " WARNING: HTTP Status " ++ toString (301 : Int) ++ " for "
          ++ ep.url ++ " " ++ (" (redirects to " ++ loc ++ ")") ++ "\n").data
        = (pluginName ++ " WARNING: HTTP Status " ++ toString (301 : Int) ++ " for "
          ++ ep.url ++ " " ++ " (redirects to ").data
          ++ (loc.data ++ (")" ++ "\n").data) by simp]
    exact subCharsMid _ _ _
  · simp [probeStep, statusPolicy, h1, h2]
  · simp [probeStep, statusPolicy, h1, h2]

theorem claim5_status_policy_stop_witness :
    ({ url := "http://a/" } : Endpoint).searchString = "" ∧
    (probeStep { url := "http://a/" }
      ⟨"a", "/", .response 301 "https://b/" "" "http://a/"⟩).1.status
        = checkStateWarning ∧
    strContains (probeStep { url := "http://a/" }
      ⟨"a", "/", .response 301 "https://b/" "" "http://a/"⟩).1.statusMsg "https://b/"
        = true :=
  ⟨rfl,
   (claim5_status_policy_stop { url := "http://a/" } "a" "/" "" "http://a/"
     "https://b/" rfl rfl).2.1,
   (claim5_status_policy_stop { url := "http://a/" } "a" "/" "" "http://a/"
     "https://b/" rfl rfl).2.2.1 (by decide)⟩

/-- C6: configuration validation runs before any probe traffic and aborts
the whole run with zero endpoints probed: a parsed endpoint list of zero
entries ends the run UNKNOWN, and any parsed list containing an endpoint
with an empty URL, a header without a colon, or a one-sided mTLS cert/key
pair ends the run WARNING. -/
theorem claim6_validation_fail_fast (o : FileOracle) (d : Bool) (p : String → Bool)
    (probes : List Probe) (eps : List Endpoint)
    (h : ∃ ep ∈ eps, epMisconfigured ep = true) :
    runCheck o d p (.parsed []) probes = (checkStateUnknown, 0) ∧
    runCheck o d p (.parsed eps) probes = (checkStateWarning, 0) := by
  constructor
  · rfl
  · have hw := loopWarnOfBad o eps {} h
    have hne : (eps.length == 0) = false := by
      rcases h with ⟨ep, hm, _⟩
      cases eps
      · cases hm
      · simp
    rcases hloop : checkArgsLoop o {} eps with ⟨w, tls⟩
    rw [hloop] at hw
    have hwv : w = some checkStateWarning := hw
    subst hwv
    have hca : checkArgs o (.parsed eps) = (checkStateWarning, none, tls) := by
      simp only [checkArgs]
      rw [if_neg (by simp [hne]), hloop]
    unfold runCheck
    rw [hca]

theorem claim6_validation_fail_fast_witness :
    (∃ ep ∈ [({ url := "" } : Endpoint)], epMisconfigured ep = true) ∧
    runCheck ⟨fun _ => true, fun _ _ => true⟩ false (fun _ => true)
      (.parsed [{ url := "" }]) [] = (checkStateWarning, 0) :=
  ⟨by decide,
   (claim6_validation_fail_fast ⟨fun _ => true, fun _ _ => true⟩ false (fun _ => true)
     [] [{ url := "" }] (by decide)).2⟩

/-- C7: for event-creating endpoints, dry-run produces no POST effect at
all while printing each event's fields and destination; live mode POSTs
each eligible endpoint's event regardless of other endpoints' POST
failures; the event loop never changes any endpoint's severity; and a POST
failure lands in the run's combined error value. -/
theorem claim7_event_emission (p : String → Bool) (eps : List Endpoint) :
    (∀ eff ∈ (eventPhaseGo true p eps 0).effects, eff.isPost = false) ∧
    (∀ ep ∈ eps, ep.error = none → ep.createEvent = true →
      EmitEffect.printed ep.url ep.eventsAPI (buildEvent ep)
        ∈ (eventPhaseGo true p eps 0).effects) ∧
    (∀ ep ∈ eps, ep.error = none → ep.createEvent = true →
      EmitEffect.posted ep.eventsAPI (buildEvent ep)
        ∈ (eventPhaseGo false p eps 0).effects) ∧
    ((eventPhaseGo false p eps 0).endpoints.map (fun e => e.status)
      = eps.map (fun e => e.status)) ∧
    (∀ ep ∈ eps, ep.error = none → ep.createEvent = true → p ep.eventsAPI = false →
      postFailMsg ep.eventsAPI ∈ overallError (eventPhaseGo false p eps 0).endpoints) := by
  refine ⟨?_, ?_, ?_, ?_, ?_⟩
  · intro eff heff
    rw [eventEffectsEq] at heff
    rcases List.mem_flatMap.mp heff with ⟨e, _, hin⟩
    simp [generateEvent] at hin
    subst hin
    rfl
  · intro ep hm he hc
    rw [eventEffectsEq]
    apply List.mem_flatMap.mpr
    refine ⟨ep, List.mem_filter.mpr ⟨hm, by simp [he, hc]⟩, ?_⟩
    simp [generateEvent]
  · intro ep hm he hc
    rw [eventEffectsEq]
    apply List.mem_flatMap.mpr
    refine ⟨ep, List.mem_filter.mpr ⟨hm, by simp [he, hc]⟩, ?_⟩
    by_cases hp : p ep.eventsAPI = true <;> simp [generateEvent, hp]
  · rw [eventEndpointsEq, List.map_map]
    apply List.map_congr_left
    intro e _
    show (if (e.error.isNone && e.createEvent) = true then _ else e).status = e.status
    split
    · rfl
    · rfl
  · intro ep hm he hc hp
    rw [eventEndpointsEq]
    unfold overallError
    apply List.mem_filterMap.mpr
    refine ⟨{ ep with error := some (postFailMsg ep.eventsAPI) }, ?_, rfl⟩
    have himg := List.mem_map_of_mem
      (fun e => if (e.error.isNone && e.createEvent) = true then
        { e with error := (generateEvent false p e).2 } else e) hm
    simp only at himg
    rw [if_pos (by simp [he, hc])] at himg
    rw [show (generateEvent false p ep).2 = some (postFailMsg ep.eventsAPI) by
      simp [generateEvent, hp]] at himg
    exact himg

theorem claim7_event_emission_witness :
    EmitEffect.posted "http://api/" (buildEvent
      { url := "http://a/", createEvent := true, eventsAPI := "http://api/" })
      ∈ (eventPhaseGo false (fun _ => false)
        [{ url := "http://a/", createEvent := true, eventsAPI := "http://api/" }] 0).effects ∧
    postFailMsg "http://api/" ∈ overallError (eventPhaseGo false (fun _ => false)
      [{ url := "http://a/", createEvent := true, eventsAPI := "http://api/" }] 0).endpoints :=
  ⟨(claim7_event_emission (fun _ => false)
      [{ url := "http://a/", createEvent := true, eventsAPI := "http://api/" }]).2.2.1
      { url := "http://a/", createEvent := true, eventsAPI := "http://api/" }
      (by decide) rfl rfl,
   (claim7_event_emission (fun _ => false)
      [{ url := "http://a/", createEvent := true, eventsAPI := "http://api/" }]).2.2.2.2
      { url := "http://a/", createEvent := true, eventsAPI := "http://api/" }
      (by decide) rfl rfl rfl⟩

/-- C8 counterexample: the claim says each endpoint's probe re-derives its
TLS configuration just in time from that endpoint's own merged spec.  With
two https endpoints whose InsecureSkipVerify flags differ, validation
leaves the single shared tls.Config carrying the second endpoint's flag,
and the first endpoint's probe uses that shared config — not a config
derived from its own spec. -/
theorem claim8_tls_counterexample :
    probeTLS (checkArgs ⟨fun _ => true, fun _ _ => true⟩
        (.parsed [{ url := "https://a/", insecureSkipVerify := true },
                  { url := "https://b/" }])).2.2
      { url := "https://a/", insecureSkipVerify := true }
      ≠ some (tlsFromSpec { url := "https://a/", insecureSkipVerify := true }) ∧
    probeTLS (checkArgs ⟨fun _ => true, fun _ _ => true⟩
        (.parsed [{ url := "https://a/", insecureSkipVerify := true },
                  { url := "https://b/" }])).2.2
      { url := "https://a/", insecureSkipVerify := true }
      = some { insecureSkipVerify := false, cipherSuites := true } := by
  decide

/-- C8 amended: the TLS configuration is accumulated in one shared mutable
config during validation, each endpoint's pass overwriting the previous
one's settings; every https endpoint's probe then uses that shared config
exactly as validation froze it, so in particular its InsecureSkipVerify
flag is the last endpoint's, not the probed endpoint's own. -/
theorem claim8_tls_shared_amended (o : FileOracle) (eps : List Endpoint)
    (tls2 : TLSConfig) (hloop : checkArgsLoop o {} eps = (none, tls2))
    (hne : eps ≠ []) :
    (∀ ep ∈ eps, urlScheme ep.url == "https" → probeTLS tls2 ep = some tls2) ∧
    tls2.insecureSkipVerify = (eps.getLast hne).insecureSkipVerify := by
  constructor
  · intro ep _ hs
    unfold probeTLS
    rw [if_pos hs]
  · exact loopSuccessLastInsecure o eps {} tls2 hloop hne

theorem claim8_tls_shared_amended_witness :
    probeTLS { insecureSkipVerify := false, cipherSuites := true }
      { url := "https://a/", insecureSkipVerify := true } =
      some { insecureSkipVerify := false, cipherSuites := true } :=
  (claim8_tls_shared_amended ⟨fun _ => true, fun _ _ => true⟩
    [{ url := "https://a/", insecureSkipVerify := true }, { url := "https://b/" }]
    { insecureSkipVerify := false, cipherSuites := true } (by decide) (by decide)).1
    { url := "https://a/", insecureSkipVerify := true } (by decide) (by decide)

end HTTPCheck
